import Mathlib

/-!
Verification of the mdns repository (an mDNS responder/resolver library)
against its natural-language specification.

The repository contains two parallel implementations:
* the "miekg" variant: the `Config` record store embedded after the
  separator in `src/go.mod` (package mdns, using github.com/miekg/dns)
  together with the connection code in `src/unnamed/part_001` and
  `src/unnamed/part_002`;
* the "dnsmessage" variant: the `Config` store in `src/unnamed/part_000`
  (using golang.org/x/net/dns/dnsmessage) together with `src/conn.go`.

Each Go function is translated into a Lean definition below; machine
integers are modelled as `Nat` (no arithmetic here ever overflows a
`uint16`/`uint32`), Go `error` results as `Option Err` or `Except Err`,
and a Go slice-index panic as `Option.none` on the enclosing operation.
Names follow the source where Lean allows.
-/

deriving instance DecidableEq for Except

namespace Mdns

/-- DNS error kinds, from the error table in `src/unnamed/part_002`
(`errJoiningMulticastGroup` .. `errInvalidParameter`) plus
`errInvalidPacket` referenced by the receive loops. -/
inductive Err where
  | joiningMulticastGroup
  | connectionClosed
  | contextElapsed
  | nilConfig
  | recordExists
  | recordNotFound
  | invalidParameter
  | invalidPacket
  deriving DecidableEq, Repr

/-- IPv4 addresses are abstract here; only equality matters to the code. -/
abbrev IPv4 := Nat

/-- dns.TypeA = 1. -/
def typeA : Nat := 1

/-- dns.TypeSRV = 33. -/
def typeSRV : Nat := 33

/-- dnsmessage.TypeAAAA = 28 (the dnsmessage receive loop matches it). -/
def typeAAAA : Nat := 28

/-- dns.ClassINET = 1. -/
def classINET : Nat := 1

/-- Constant block shared by `src/conn.go`, `src/unnamed/part_001` and
`src/unnamed/part_002`: `responseTTL = 10`. -/
def responseTTL : Nat := 10

/-- Constant `maxMessageRecords = 3` from the same block. -/
def maxMessageRecords : Nat := 3

/-- Constant `maxQueryMessageRecords = 1` from the same block. -/
def maxQueryMessageRecords : Nat := 1

/-- Modelled from the spec: the helper `addDot` is called by the source
(`addARecord`/`addSRVRecord` in `src/go.mod`, `Query` in
`src/unnamed/part_002`, `QuerySync`/`QueryASync` in `src/unnamed/part_001`)
but its definition is not under `src/`.  Spec section 4.2 describes the
canonicalization step as: append a dot if missing, lowercase.
(Spelled out over the character list so that the kernel can evaluate it.) -/
def addDot (s : String) : String :=
  let l := String.mk (s.data.map Char.toLower)
  if l.data.getLast? = some '.' then l else l ++ "."

/-- Modelled from the spec: `interfaceForRemote` (section 4.3, the
interface resolver) is called by `AddDynamicIP` but its definition is not
under `src/`.  Given the remote peer address it returns the local IPv4
the kernel would source, or fails (modelled as `none`, which
`AddDynamicIP` turns into `errInvalidParameter`).  It is passed as an
explicit argument to the lookup functions. -/
abbrev Resolver := String → Option IPv4

/-! ## The miekg-variant record store (`src/go.mod`, package mdns) -/

/-- Go `DynamicARR` from `src/go.mod`: an embedded `dns.A`
(header name/type/class/TTL plus the 4-byte address, `none` for Go's nil
`net.IP`) together with the `Dynamic` flag. -/
structure DynamicARR where
  hdrName : String
  hdrRrtype : Nat
  hdrClass : Nat
  hdrTtl : Nat
  addr : Option IPv4
  dynamic : Bool
  deriving DecidableEq, Repr

/-- Go `dns.SRV` as stored in `Config.SRVRecords` in `src/go.mod`:
header plus priority/weight/port/target. -/
structure SRVRec where
  hdrName : String
  hdrRrtype : Nat
  hdrClass : Nat
  hdrTtl : Nat
  priority : Nat
  weight : Nat
  port : Nat
  target : String
  deriving DecidableEq, Repr

/-- A `dns.RR` answer element produced by `Config.Lookup` in `src/go.mod`:
either a (possibly dynamically resolved) A record or an SRV record. -/
inductive RR where
  | a (rec : DynamicARR)
  | srv (rec : SRVRec)
  deriving DecidableEq, Repr

/-- Go `Config` from `src/go.mod`: the record store.  The mutex and
`QueryInterval` play no role in the store operations modelled here. -/
structure Config where
  aRecords : List DynamicARR
  srvRecords : List SRVRec
  deriving DecidableEq, Repr

/-- Go `Config.createSimpleARecord` (`src/go.mod`): header gets the name,
ClassINET, `Ttl: responseTTL`, `Rrtype: TypeA`; the address field and the
`Dynamic` flag are left at their zero values.  The Go error result is
always nil, so it is dropped here. -/
def createSimpleARecord (name : String) : DynamicARR :=
  { hdrName := name
    hdrRrtype := typeA
    hdrClass := classINET
    hdrTtl := responseTTL
    addr := none
    dynamic := false }

/-- Go `Config.createSRVRecord` (`src/go.mod`): header gets the name,
`Rrtype: TypeSRV`, `Class: ClassINET`; the `Ttl` field is never assigned,
so it keeps Go's zero value 0.  The Go error result is always nil. -/
def createSRVRecord (name : String) (priority weight port : Nat)
    (target : String) : SRVRec :=
  { hdrName := name
    hdrRrtype := typeSRV
    hdrClass := classINET
    hdrTtl := 0
    priority := priority
    weight := weight
    port := port
    target := target }

/-- Go `Config.addARecordToConfig` (`src/go.mod`): scan for an existing
record with the same header name (the loop direction does not matter for
the boolean outcome); on a hit return `errRecordExists`, otherwise append. -/
def addARecordToConfig (c : Config) (rec : DynamicARR) : Except Err Config :=
  if c.aRecords.any (fun r => r.hdrName = rec.hdrName) then
    .error .recordExists
  else
    .ok { c with aRecords := c.aRecords ++ [rec] }

/-- Go `Config.addSRVRecordToConfig` (`src/go.mod`). -/
def addSRVRecordToConfig (c : Config) (rec : SRVRec) : Except Err Config :=
  if c.srvRecords.any (fun r => r.hdrName = rec.hdrName) then
    .error .recordExists
  else
    .ok { c with srvRecords := c.srvRecords ++ [rec] }

/-- Go `Config.addARecord` (`src/go.mod`): empty name is
`errInvalidParameter`; the name is canonicalized with `addDot`; with
`dyn=false` and a destination the record is static with that address,
otherwise it is made dynamic. -/
def addARecord (c : Config) (name : String) (dst : Option IPv4)
    (dyn : Bool) : Except Err Config :=
  if name = "" then .error .invalidParameter
  else
    let name' := addDot name
    let rec0 := createSimpleARecord name'
    let rec1 :=
      if dyn = false ∧ dst.isSome then
        { rec0 with hdrName := name', addr := dst, dynamic := false }
      else
        { rec0 with dynamic := true }
    addARecordToConfig c rec1

/-- Go `Config.addSRVRecord` (`src/go.mod`): empty name or target is
`errInvalidParameter`; both names are canonicalized with `addDot`. -/
def addSRVRecord (c : Config) (name : String) (priority weight port : Nat)
    (target : String) : Except Err Config :=
  if name = "" ∨ target = "" then .error .invalidParameter
  else
    addSRVRecordToConfig c
      (createSRVRecord (addDot name) priority weight port (addDot target))

/-- The removal loop shared (textually) by `Config.removeARecord` and
`Config.removeSRVRecord` in `src/go.mod` (and by `RemoveARecord` /
`RemoveSRVRecord` in `src/unnamed/part_000`):

  for i := len(recs) - 1; i >= 0; i-- {
    if recs[i].Header().Name == name {
      recs = append(recs[:i], recs[i+1])
      return nil
    }
  }
  return errRecordNotFound

`removeScan recs getName name (i+1)` models the loop with current index
`i`; `removeScan recs getName name 0` is the fallen-through loop.  Note
the source reads the single element `recs[i+1]` (not the tail
`recs[i+1:]...`): when `i+1 ≥ len(recs)` this indexing panics with an
out-of-range error, modelled as `none`. -/
def removeScan {α : Type} (recs : List α) (getName : α → String)
    (name : String) : Nat → Option (Except Err (List α))
  | 0 => some (.error .recordNotFound)
  | i + 1 =>
    if h : i < recs.length then
      if getName (recs.get ⟨i, h⟩) = name then
        if h2 : i + 1 < recs.length then
          some (.ok (recs.take i ++ [recs.get ⟨i + 1, h2⟩]))
        else
          none
      else
        removeScan recs getName name i
    else
      removeScan recs getName name i

/-- Go `Config.removeARecord` (`src/go.mod`): `none` is a Go index-out-of-range
panic inside the removal, `some (.error e)` a returned error, and
`some (.ok c)` a normal return with the updated store. -/
def removeARecord (c : Config) (name : String) : Option (Except Err Config) :=
  match removeScan c.aRecords (fun r => r.hdrName) name c.aRecords.length with
  | none => none
  | some (.error e) => some (.error e)
  | some (.ok l) => some (.ok { c with aRecords := l })

/-- Go `Config.removeSRVRecord` (`src/go.mod`), same shape as
`removeARecord`. -/
def removeSRVRecord (c : Config) (name : String) : Option (Except Err Config) :=
  match removeScan c.srvRecords (fun r => r.hdrName) name c.srvRecords.length with
  | none => none
  | some (.error e) => some (.error e)
  | some (.ok l) => some (.ok { c with srvRecords := l })

/-- Go `Config.lookupA` (`src/go.mod`): forward scan, first record whose
header name equals the query name (the source returns a copy; copying is
invisible here). -/
def lookupA (c : Config) (qName : String) : Option DynamicARR :=
  c.aRecords.find? (fun r => r.hdrName = qName)

/-- Go `Config.lookupSRV` (`src/go.mod`): forward scan, first match. -/
def lookupSRV (c : Config) (qName : String) : Option SRVRec :=
  c.srvRecords.find? (fun r => r.hdrName = qName)

/-- The empty store, for concrete evaluations. -/
def emptyConfig : Config := { aRecords := [], srvRecords := [] }

/-- Go `dns.Question` (name, Qtype, Qclass). -/
structure Question where
  qname : String
  qtype : Nat
  qclass : Nat
  deriving DecidableEq, Repr

/-- Go `Config.Lookup` (`src/go.mod`).  The Go signature is
`Lookup(answers *[]dns.RR, q *dns.Question, src net.Addr) error`:
`answers` is an out-parameter that accumulates records (appends persist
even when an error is returned), so the model returns the pair
(returned error, final contents of `*answers`).

* TypeA: on a hit, a dynamic record first resolves its address from
  `src` via `AddDynamicIP` (which calls `interfaceForRemote`; failure is
  `errInvalidParameter` with nothing appended), then the record is
  appended; a miss falls through to the final `return nil`.
* TypeSRV: on a hit the SRV record is appended, then the function calls
  itself recursively with a fresh question built from `rec.Target`,
  `dns.TypeA` and the record's class, propagating any error; a miss falls
  through to `return nil`.
* any other Qtype: `return nil`.

The recursion is on the measure `if q.qtype = typeSRV then 1 else 0`:
the recursive call always carries `typeA`, so it cannot recurse again. -/
def Lookup (c : Config) (resolve : Resolver) (answers : List RR)
    (q : Question) (src : String) : Option Err × List RR :=
  if _h1 : q.qtype = typeA then
    match lookupA c q.qname with
    | some rec =>
      if rec.dynamic then
        match resolve src with
        | none => (some .invalidParameter, answers)
        | some ip => (none, answers ++ [RR.a { rec with addr := some ip }])
      else
        (none, answers ++ [RR.a rec])
    | none => (none, answers)
  else if _h2 : q.qtype = typeSRV then
    match lookupSRV c q.qname with
    | some rec =>
      Lookup c resolve (answers ++ [RR.srv rec])
        { qname := rec.target, qtype := typeA, qclass := rec.hdrClass } src
    | none => (none, answers)
  else
    (none, answers)
termination_by (if q.qtype = typeSRV then 1 else 0)
decreasing_by simp_all [typeA, typeSRV]

/-- The body of the `dns.TypeA` case of `Config.Lookup`, written out as a
non-recursive reference definition.  It consults only `lookupA` (never
the SRV records, never the SRV question type) and uses the same `src`.
It is used to state that the SRV branch performs exactly one A-typed
lookup on the target and recurses no further. -/
def lookupABranch (c : Config) (resolve : Resolver) (answers : List RR)
    (qName : String) (src : String) : Option Err × List RR :=
  match lookupA c qName with
  | some rec =>
    if rec.dynamic then
      match resolve src with
      | none => (some .invalidParameter, answers)
      | some ip => (none, answers ++ [RR.a { rec with addr := some ip }])
    else
      (none, answers ++ [RR.a rec])
  | none => (none, answers)

/-- A concrete store for the C1 witness: one SRV record for `s.local.`
targeting `t.local.`, plus a static A record for the target. -/
def cfgC1 : Config :=
  { aRecords := [createSimpleARecord "t.local."]
    srvRecords := [createSRVRecord "s.local." 0 0 8080 "t.local."] }

/-! ## The miekg-variant connection (`src/unnamed/part_001`, `src/unnamed/part_002`)

`part_002`'s `Conn.start` processes one datagram per loop iteration inside
a closure; `part_001`'s `Conn.Start` runs the same per-packet logic (gates,
`processQuestions`, `processAnswers`) in a channel-fed goroutine.  The
models below describe that per-packet processing on an already-decoded
message; socket reads, `dns.IsMsg` / `Unpack` failures (logged drops) and
the channel mechanics are outside the shallow embedding. -/

/-- The `query` struct of `src/unnamed/part_001` / `part_002`: an
outstanding outbound query.  The one-shot result channel is represented
by recording deliveries explicitly. -/
structure PendingQuery where
  ttype : Nat
  nameWithSuffix : String
  deriving DecidableEq, Repr

/-- An inbound answer record as the miekg engine sees it: the header name
and Rrtype (`rr.Header().Name`, `rr.Header().Rrtype`).  The Go type
switch `a.(type)` distinguishing `*dns.A` / `*dns.SRV` corresponds to the
Rrtype the unpacker assigned, so the switch is modelled on `rrtype`. -/
structure AnswerRR where
  name : String
  rrtype : Nat
  deriving DecidableEq, Repr

/-- A decoded inbound `dns.Msg`: the header fields the receive loop
consults plus the question and answer sections. -/
structure InMsg where
  msgId : Nat
  opcode : Nat
  rcode : Nat
  truncated : Bool
  questions : List Question
  answers : List AnswerRR
  deriving DecidableEq, Repr

/-- An outbound response `dns.Msg` built by `createAnswerMessage`
(`src/unnamed/part_001` / `part_002`). -/
structure AnswerMsg where
  msgId : Nat
  response : Bool
  opcode : Nat
  authoritative : Bool
  compress : Bool
  answers : List RR
  deriving DecidableEq, Repr

/-- Go `createAnswerMessage` (`src/unnamed/part_002` lines 265-278, same in
`part_001`): echo the inbound ID, QR=1, OPCODE=OpcodeQuery, AA=1,
compression on, and the given answer records. -/
def createAnswerMessage (m : InMsg) (answers : List RR) : AnswerMsg :=
  { msgId := m.msgId
    response := true
    opcode := 0
    authoritative := true
    compress := true
    answers := answers }

/-- The question half of the miekg receive loop (`src/unnamed/part_002`
lines 142-154; `Conn.processQuestions` in `part_001`): for each question
of the message (all of them — no `maxQueryMessageRecords` bound appears
in this loop), run `Config.Lookup` with a fresh empty answer slice and
the peer address; when the returned error is nil, build a response from
the accumulated answers and send it.  The returned list holds the sent
responses in order. -/
def processQuestions (c : Config) (resolve : Resolver) (m : InMsg)
    (src : String) : List AnswerMsg :=
  m.questions.foldl
    (fun acc q =>
      match Lookup c resolve [] q src with
      | (none, ans) => acc ++ [createAnswerMessage m ans]
      | (some _, _) => acc)
    []

/-- A delivery to one pending query's result channel: the receiving
query, the full inbound answer section, and the peer address —
`queryResult{msg.Answer, src}` in `src/unnamed/part_002`
(`QueryResult{msg.Answer, src}` in `part_001`). -/
structure Delivery where
  receiver : PendingQuery
  answers : List AnswerRR
  src : String
  deriving DecidableEq, Repr

/-- The registry scan run for one matching-capable answer record
(`src/unnamed/part_002` lines 165-174 / 181-188, identical in
`part_001.processAnswers`):

  for i := len(c.queries) - 1; i >= 0; i-- {
    if c.queries[i].nameWithSuffix == name && c.queries[i].ttype == rrtype {
      c.queries[i].queryResultChan <- payload
      c.queries = append(c.queries[:i], c.queries[i+1:]...)
    }
  }

The loop walks indices downward, so deliveries for later entries happen
first; removal at `i` leaves smaller indices intact.  `scanDeliver`
returns (deliveries in the loop's order, surviving queries in order). -/
def scanDeliver (qs : List PendingQuery) (name : String) (rrtype : Nat)
    (answers : List AnswerRR) (src : String) :
    List Delivery × List PendingQuery :=
  match qs with
  | [] => ([], [])
  | q :: rest =>
    let (ds, rest') := scanDeliver rest name rrtype answers src
    if q.nameWithSuffix = name ∧ q.ttype = rrtype then
      (ds ++ [{ receiver := q, answers := answers, src := src }], rest')
    else
      (ds, q :: rest')

/-- The answer half of the miekg receive loop (`src/unnamed/part_002`
lines 156-192; `Conn.processAnswers` in `part_001`): every answer record
of the message is visited in order (no `maxMessageRecords` bound appears
in this loop); records whose type is neither A nor SRV fall through the
type switch untouched; A and SRV records each trigger the registry scan
with the entire answer section plus peer address as payload. -/
def processAnswers (m : InMsg) (qs : List PendingQuery) (src : String) :
    List Delivery × List PendingQuery :=
  m.answers.foldl
    (fun acc a =>
      if a.rrtype = typeA ∨ a.rrtype = typeSRV then
        let (ds, qs') := scanDeliver acc.2 a.name a.rrtype m.answers src
        (acc.1 ++ ds, qs')
      else
        acc)
    ([], qs)

/-- One iteration of the miekg per-packet pipeline on a decoded message
(`src/unnamed/part_002` lines 103-194, `part_001` lines 182-223): the
three protocol gates (OPCODE ≠ 0, RCODE ≠ 0, TC set) each drop the packet
with nothing sent and the query registry untouched; otherwise questions
are processed (producing outbound responses) and then answers (producing
deliveries and registry removals).  Result: (sent responses, deliveries,
new query registry). -/
def processPacket (c : Config) (resolve : Resolver)
    (qs : List PendingQuery) (m : InMsg) (src : String) :
    List AnswerMsg × List Delivery × List PendingQuery :=
  if m.opcode ≠ 0 then ([], [], qs)
  else if m.rcode ≠ 0 then ([], [], qs)
  else if m.truncated then ([], [], qs)
  else
    let sends := processQuestions c resolve m src
    let (ds, qs') := processAnswers m qs src
    (sends, ds, qs')

/-! ## Query registration and the blocking-query select loop (miekg variant) -/

/-- Registration step of `Conn.Query` (`src/unnamed/part_002` lines
222-229) and `Conn.QuerySync` (`part_001`): canonicalize the name with
`addDot` and append the entry to `c.queries`. -/
def registerQuery (qs : List PendingQuery) (name : String) (ttype : Nat) :
    List PendingQuery :=
  qs ++ [{ ttype := ttype, nameWithSuffix := addDot name }]

/-- The four events the `Conn.Query` select loop
(`src/unnamed/part_002` lines 234-245) can wake on. -/
inductive WakeEvent where
  | tick
  | closedCh
  | answerArrived (answers : List AnswerRR) (src : String)
  | ctxDone
  deriving DecidableEq, Repr

/-- One iteration of the `Conn.Query` select loop
(`src/unnamed/part_002` lines 234-245; `QuerySync` in `part_001` is
identical): a ticker tick resends the question and keeps looping
(`none`); connection close returns `errConnectionClosed`; a delivered
result returns it; context cancellation returns `errContextElapsed`.
Every arm leaves `c.queries` exactly as it was — no arm removes the
registered entry — and no arm calls `ticker.Stop()` (no such call exists
in the function), which the second component records verbatim by
returning the registry unchanged. -/
def querySelect (qs : List PendingQuery) (e : WakeEvent) :
    Option (Except Err (List AnswerRR × String)) × List PendingQuery :=
  match e with
  | .tick => (none, qs)
  | .closedCh => (some (.error .connectionClosed), qs)
  | .answerArrived answers src => (some (.ok (answers, src)), qs)
  | .ctxDone => (some (.error .contextElapsed), qs)

/-- Go `Conn.sendQuestion` of the miekg variant (`src/unnamed/part_002`
lines 248-263, `src/unnamed/part_001` lines 379-394): outbound question
message.  `msg.SetQuestion(name, ttype)` (miekg/dns) assigns a freshly
drawn random ID via `dns.Id()`, sets RD and a single ClassINET question
with the requested type; the caller then re-asserts
`msg.RecursionDesired = true`.  The library's random ID is passed in as
`idv`. -/
structure QMsg where
  msgId : Nat
  response : Bool
  recursionDesired : Bool
  questions : List Question
  deriving DecidableEq, Repr

/-- See `QMsg`. -/
def sendQuestionMiekg (idv : Nat) (name : String) (ttype : Nat) : QMsg :=
  { msgId := idv
    response := false
    recursionDesired := true
    questions := [{ qname := name, qtype := ttype, qclass := classINET }] }

namespace Dnsm

/-! ## The dnsmessage variant (`src/unnamed/part_000` store, `src/conn.go`
connection) -/

open Mdns

/-- Go `DynamicARecord` from `src/unnamed/part_000`: a
`dnsmessage.Resource` whose header carries name/type/class/TTL, whose
body is an `AResource` (or Go nil, `none`), plus the `Dynamic` flag. -/
structure DynamicARecord where
  name : String
  rrtype : Nat
  cls : Nat
  ttl : Nat
  body : Option IPv4
  dynamic : Bool
  deriving DecidableEq, Repr

/-- An entry of `Config.SRVRecords` in `src/unnamed/part_000`: a
`dnsmessage.Resource` with an `SRVResource` body. -/
structure SRVResource where
  name : String
  rrtype : Nat
  cls : Nat
  ttl : Nat
  priority : Nat
  weight : Nat
  port : Nat
  target : String
  deriving DecidableEq, Repr

/-- Go `Config` of `src/unnamed/part_000`. -/
structure Config where
  aRecords : List DynamicARecord
  srvRecords : List SRVResource
  deriving DecidableEq, Repr

/-- Go `Config.createSimpleARecord` (`src/unnamed/part_000` lines 143-160):
TypeA header, ClassINET, TTL `responseTTL`, nil body.  `NewName` packing
failures (malformed names) are outside the model. -/
def createSimpleARecord (name : String) : DynamicARecord :=
  { name := name
    rrtype := typeA
    cls := classINET
    ttl := responseTTL
    body := none
    dynamic := false }

/-- Go `Config.createSRVRecord` (`src/unnamed/part_000` lines 162-188).
The source sets the header field `Type: dnsmessage.TypeA` (line 175)
even though the body is an `SRVResource` — translated verbatim. -/
def createSRVRecord (name : String) (priority weight port : Nat)
    (target : String) : SRVResource :=
  { name := name
    rrtype := typeA
    cls := classINET
    ttl := responseTTL
    priority := priority
    weight := weight
    port := port
    target := target }

/-- Go `Config.lookupA` (`src/unnamed/part_000`): forward scan on the
header name. -/
def lookupA (c : Config) (qName : String) : Option DynamicARecord :=
  c.aRecords.find? (fun r => r.name = qName)

/-- Go `Config.lookupSRV` (`src/unnamed/part_000`): forward scan. -/
def lookupSRV (c : Config) (qName : String) : Option SRVResource :=
  c.srvRecords.find? (fun r => r.name = qName)

/-- Go `Config.Lookup` of `src/unnamed/part_000` (lines 191-222).  The Go
signature is `Lookup(answers []dnsmessage.Resource, name, ttype, class,
src) error`: the slice is passed BY VALUE, so every `answers = append(...)`
inside mutates only the callee's local slice header and the caller
observes nothing but the returned error; the model therefore returns
only the error.

* TypeA hit: a dynamic record resolves via `AddDynamicIP` (failure
  returns `errInvalidParameter`); then `return nil`.
* TypeSRV hit: recursive call with the record's OWN header name, type
  and class (the recursion bug the spec's design notes describe); the
  recursive error only guards a dead local append, and the branch then
  returns nil.
* no hit / other type: fall through to `return errRecordNotFound`.

A store whose SRV record carries header type TypeSRV under its own name
would recurse forever; `fuel` models the Go call stack, and `none` means
that non-termination (in Go: the process hangs / overflows).  Records
created through `createSRVRecord` carry TypeA, so the recursion then
takes the A branch and terminates. -/
def Lookup (fuel : Nat) (c : Config) (resolve : Resolver) (name : String)
    (ttype cls : Nat) (src : String) : Option (Option Err) :=
  if ttype = typeA then
    match lookupA c name with
    | some rec =>
      if rec.dynamic then
        match resolve src with
        | none => some (some .invalidParameter)
        | some _ => some none
      else
        some none
    | none => some (some .recordNotFound)
  else if ttype = typeSRV then
    match lookupSRV c name with
    | some rec =>
      match fuel with
      | 0 => none
      | fuel' + 1 =>
        match Lookup fuel' c resolve rec.name rec.rrtype rec.cls src with
        | none => none
        | some _ => some none
    | none => some (some .recordNotFound)
  else
    some (some .recordNotFound)

/-- The outbound question message built by `Conn.sendQuestion` in
`src/conn.go` (lines 225-260): a zero `dnsmessage.Header` — so ID = 0,
QR (Response) = false and RD (RecursionDesired) = false — and one
question with ClassINET whose type is set by the switch only for TypeA
and TypeSRV (any other requested type leaves the zero value 0). -/
def sendQuestionMsg (name : String) (ttype : Nat) : QMsg :=
  { msgId := 0
    response := false
    recursionDesired := false
    questions := [{ qname := name
                    qtype := if ttype = typeA then typeA
                             else if ttype = typeSRV then typeSRV else 0
                    qclass := classINET }] }

/-- The name under which `Conn.Query` in `src/conn.go` (line 197)
registers a query: `nameWithSuffix := name + "."`, an unconditional
append. -/
def queryNameWithSuffix (name : String) : String := name ++ "."

/-- The response message built by `createMessage` in `src/conn.go`
(lines 262-270): QR=1, AA=1, and the given answer section.  The engine
always passes its local `answers` slice, which `Config.Lookup` (by-value
slice) never extends, so the section the engine sends is empty. -/
structure RespMsg where
  response : Bool
  authoritative : Bool
  answers : List AnswerRR
  deriving DecidableEq, Repr

/-- See `RespMsg`. -/
def createMessage (answers : List AnswerRR) : RespMsg :=
  { response := true, authoritative := true, answers := answers }

/-- A delivery made by the `src/conn.go` receive loop: only the single
answer HEADER plus the peer address (`queryResult{a, src}`, line 153). -/
structure HdrDelivery where
  receiver : PendingQuery
  answer : AnswerRR
  src : String
  deriving DecidableEq, Repr

/-- The registry scan of `src/conn.go` (lines 150-157): same downward
loop as the miekg variant but the payload is the one answer header. -/
def scanDeliverHdr (qs : List PendingQuery) (name : String) (rrtype : Nat)
    (a : AnswerRR) (src : String) : List HdrDelivery × List PendingQuery :=
  match qs with
  | [] => ([], [])
  | q :: rest =>
    let (ds, rest') := scanDeliverHdr rest name rrtype a src
    if q.nameWithSuffix = name ∧ q.ttype = rrtype then
      (ds ++ [{ receiver := q, answer := a, src := src }], rest')
    else
      (ds, q :: rest')

/-- One iteration of the `src/conn.go` receive loop (lines 101-170) on a
decoded message.  There is NO protocol gate: the header's OPCODE, RCODE
and TC bits are never consulted.  Questions: the loop
`for i := 0; i <= maxQueryMessageRecords; i++` reads at most 2 questions;
for each, `Config.Lookup` (part_000) runs with the engine's empty local
answer slice, and on a nil error the engine sends `createMessage` of that
(still empty) slice.  Answers: the loop `for i := 0; i <= maxMessageRecords; i++`
reads at most 4 answer headers; headers whose type is neither A nor AAAA
are skipped; matching registry entries receive the single header plus
peer and are removed.  A diverging `Lookup` (fuel exhaustion) would hang
the Go loop; it is mapped to "no send" here and never reached below. -/
def processPacket (fuel : Nat) (c : Config) (resolve : Resolver)
    (qs : List PendingQuery) (m : InMsg) (src : String) :
    List RespMsg × List HdrDelivery × List PendingQuery :=
  let sends := (m.questions.take (maxQueryMessageRecords + 1)).foldl
    (fun acc q =>
      match Lookup fuel c resolve q.qname q.qtype q.qclass src with
      | some none => acc ++ [createMessage []]
      | _ => acc)
    []
  let rest := (m.answers.take (maxMessageRecords + 1)).foldl
    (fun (acc : List HdrDelivery × List PendingQuery) a =>
      if a.rrtype = typeA ∨ a.rrtype = typeAAAA then
        let (ds, qs') := scanDeliverHdr acc.2 a.name a.rrtype a src
        (acc.1 ++ ds, qs')
      else
        acc)
    ([], qs)
  (sends, rest.1, rest.2)

end Dnsm

/-- Helper: an A-typed `Lookup` is exactly the (non-recursive) A branch. -/
theorem lookup_typeA_eq (c : Config) (resolve : Resolver) (answers : List RR)
    (n : String) (cls : Nat) (src : String) :
    Lookup c resolve answers { qname := n, qtype := typeA, qclass := cls } src
      = lookupABranch c resolve answers n src := by
  unfold Lookup lookupABranch
  simp

/-- Helper: an SRV-typed `Lookup` that finds a record appends it and then
behaves as one A-typed lookup on the record's target with the same
source address. -/
theorem lookup_typeSRV_eq (c : Config) (resolve : Resolver)
    (answers : List RR) (n : String) (cls : Nat) (src : String)
    (rec : SRVRec) (h : lookupSRV c n = some rec) :
    Lookup c resolve answers { qname := n, qtype := typeSRV, qclass := cls } src
      = lookupABranch c resolve (answers ++ [RR.srv rec]) rec.target src := by
  have step : Lookup c resolve answers
        { qname := n, qtype := typeSRV, qclass := cls } src
      = Lookup c resolve (answers ++ [RR.srv rec])
        { qname := rec.target, qtype := typeA, qclass := rec.hdrClass } src := by
    conv_lhs => rw [Lookup.eq_def]
    simp [typeA, typeSRV, h]
  rw [step]
  exact lookup_typeA_eq c resolve (answers ++ [RR.srv rec]) rec.target
    rec.hdrClass src

/-- Claim C1: for every store state, an SRV-typed `Config.Lookup`
(`src/go.mod`) that finds a matching SRV record returns the SRV answer
followed by the result of exactly one recursive A-typed lookup on the SRV
record's target name with the same source address: the whole call equals
`lookupABranch` (the non-recursive A case) applied to the target and the
same `src` after appending the SRV answer, and every A-typed `Lookup` is
itself exactly `lookupABranch`, which consults only the A records — so
the recursion is one level deep and never re-queries the SRV record's own
name and type. -/
theorem claim_C1 (c : Config) (resolve : Resolver) (answers : List RR)
    (n : String) (cls : Nat) (src : String) (rec : SRVRec)
    (h : lookupSRV c n = some rec) :
    Lookup c resolve answers { qname := n, qtype := typeSRV, qclass := cls } src
      = lookupABranch c resolve (answers ++ [RR.srv rec]) rec.target src
    ∧ ∀ (ans2 : List RR) (n2 : String) (cls2 : Nat),
      Lookup c resolve ans2 { qname := n2, qtype := typeA, qclass := cls2 } src
        = lookupABranch c resolve ans2 n2 src :=
  ⟨lookup_typeSRV_eq c resolve answers n cls src rec h,
   fun ans2 n2 cls2 => lookup_typeA_eq c resolve ans2 n2 cls2 src⟩


/-- Witness for C1 at a concrete store, query and source address. -/
theorem claim_C1_witness :
    lookupSRV cfgC1 "s.local." = some (createSRVRecord "s.local." 0 0 8080 "t.local.")
    ∧ Lookup cfgC1 (fun _ => none) []
        { qname := "s.local.", qtype := typeSRV, qclass := classINET } "peer"
      = lookupABranch cfgC1 (fun _ => none)
          [RR.srv (createSRVRecord "s.local." 0 0 8080 "t.local.")] "t.local." "peer" :=
  ⟨by decide, by
    have h := (claim_C1 cfgC1 (fun _ => none) [] "s.local." classINET "peer"
      (createSRVRecord "s.local." 0 0 8080 "t.local.") (by decide)).1
    simpa using h⟩

/-- Claim C4 (evaluation of the code bug): `add_a` on the empty store
followed by `remove_a` of the same name does not return the store to a
state with no A record — the removal's `append(c.ARecords[:i], c.ARecords[i+1])`
(`src/go.mod` removeARecord) indexes one past the end when the matched
record is the last element, a Go index-out-of-range panic (`none`);
the same holds for `add_srv ; remove_srv` (removeSRVRecord).
`some none` below reads: the add succeeded and the remove panicked. -/
theorem claim_C4 :
    (addARecord emptyConfig "x.local." (some 10) false).toOption.map
        (fun c => removeARecord c "x.local.") = some none
    ∧ (addSRVRecord emptyConfig "x.local." 0 0 8080 "y.local.").toOption.map
        (fun c => removeSRVRecord c "x.local.") = some none := by
  decide

/-- Claim C10 (evaluation of the code bug): removing a record whose sole
match is the last element of the record list performs an out-of-bounds
list access: `Config.removeARecord` / `Config.removeSRVRecord`
(`src/go.mod`; same loop in `src/unnamed/part_000`) read `recs[i+1]`
with `i` the last index, modelled as `none` (Go panic). -/
theorem claim_C10 :
    removeARecord
        ({ aRecords := [createSimpleARecord "x.local."], srvRecords := [] } : Config)
        "x.local." = none
    ∧ removeSRVRecord
        ({ aRecords := [],
           srvRecords := [createSRVRecord "x.local." 0 0 8080 "y.local."] } : Config)
        "x.local." = none := by
  decide

/-! ## Helper lemmas about `Lookup` on unmatched names -/

/-- Helper: an A-typed `Lookup` (`src/go.mod`) with no matching A record
returns a nil error and leaves the answer slice unchanged. -/
theorem lookup_typeA_none (c : Config) (resolve : Resolver)
    (answers : List RR) (n : String) (cls : Nat) (src : String)
    (h : lookupA c n = none) :
    Lookup c resolve answers { qname := n, qtype := typeA, qclass := cls } src
      = (none, answers) := by
  rw [lookup_typeA_eq]
  simp [lookupABranch, h]

/-- Helper: an SRV-typed `Lookup` (`src/go.mod`) with no matching SRV
record returns a nil error and leaves the answer slice unchanged. -/
theorem lookup_typeSRV_none (c : Config) (resolve : Resolver)
    (answers : List RR) (n : String) (cls : Nat) (src : String)
    (h : lookupSRV c n = none) :
    Lookup c resolve answers { qname := n, qtype := typeSRV, qclass := cls } src
      = (none, answers) := by
  conv_lhs => rw [Lookup.eq_def]
  simp [typeA, typeSRV, h]

/-! ## Claim C2: protocol gates -/

/-- Claim C2 counterexample: the `src/conn.go` receive loop consults
neither OPCODE nor RCODE nor TC.  A packet with OPCODE = 2 whose answer
record matches a registered query is still delivered to the query's sink
and the entry is removed, so the registry IS updated, contradicting the
claim as stated for that receive loop. -/
theorem claim_C2_counterexample :
    Dnsm.processPacket 1 ({ aRecords := [], srvRecords := [] } : Dnsm.Config)
        (fun _ => none)
        [{ ttype := typeA, nameWithSuffix := "x.local." }]
        ({ msgId := 0, opcode := 2, rcode := 0, truncated := false,
           questions := [],
           answers := [{ name := "x.local.", rrtype := typeA }] } : InMsg)
        "peer"
      = ([],
         [{ receiver := { ttype := typeA, nameWithSuffix := "x.local." },
            answer := { name := "x.local.", rrtype := typeA },
            src := "peer" }],
         []) := by
  decide

/-- Claim C2 (amended): in the miekg receive loop (`src/unnamed/part_001`
`Conn.Start`, `src/unnamed/part_002` `Conn.start`) every inbound packet
with OPCODE ≠ 0, RCODE ≠ 0 or the TC bit set produces no outbound
response, no sink delivery and no change to the query registry; the
dnsmessage receive loop in `src/conn.go` performs no such gating. -/
theorem claim_C2 (c : Config) (resolve : Resolver) (qs : List PendingQuery)
    (m : InMsg) (src : String)
    (h : m.opcode ≠ 0 ∨ m.rcode ≠ 0 ∨ m.truncated = true) :
    processPacket c resolve qs m src = ([], [], qs) := by
  unfold processPacket
  rcases h with h | h | h
  · simp [h]
  · by_cases h1 : m.opcode = 0 <;> simp [h, h1]
  · by_cases h1 : m.opcode = 0 <;> by_cases h2 : m.rcode = 0 <;>
      simp [h, h1, h2]

/-- Witness for C2 (amended) on a concrete truncated packet. -/
theorem claim_C2_witness :
    ((3 : Nat) ≠ 0 ∨ (0 : Nat) ≠ 0 ∨ true = true)
    ∧ processPacket emptyConfig (fun _ => none)
        [{ ttype := typeA, nameWithSuffix := "x.local." }]
        ({ msgId := 0, opcode := 3, rcode := 0, truncated := false,
           questions := [{ qname := "x.local.", qtype := typeA, qclass := classINET }],
           answers := [] } : InMsg)
        "peer"
      = ([], [], [{ ttype := typeA, nameWithSuffix := "x.local." }]) :=
  ⟨by decide,
   claim_C2 emptyConfig (fun _ => none)
     [{ ttype := typeA, nameWithSuffix := "x.local." }]
     ({ msgId := 0, opcode := 3, rcode := 0, truncated := false,
        questions := [{ qname := "x.local.", qtype := typeA, qclass := classINET }],
        answers := [] } : InMsg)
     "peer" (by decide)⟩

/-! ## Claim C3: unmatched questions -/

/-- Claim C3 counterexample: the miekg packet engine does NOT silently
decline to answer an unmatched question.  `Config.Lookup` (`src/go.mod`)
returns a nil error on a miss, so `src/unnamed/part_002` lines 147-153
build and send a response — with an empty answer section — for a question
that matches no record; the claim as stated says no response message is
sent. -/
theorem claim_C3_counterexample :
    (processPacket emptyConfig (fun _ => none) []
        ({ msgId := 7, opcode := 0, rcode := 0, truncated := false,
           questions := [{ qname := "nope.local.", qtype := typeA, qclass := classINET }],
           answers := [] } : InMsg)
        "peer").1
      = [{ msgId := 7, response := true, opcode := 0, authoritative := true,
           compress := true, answers := [] }] := by
  have h := lookup_typeA_none emptyConfig (fun _ => none) [] "nope.local."
    classINET "peer" (by decide)
  simp [processPacket, processQuestions, processAnswers, h, createAnswerMessage]

/-- Claim C3 (amended): for a query with no matching record of its type,
the miekg-variant `Config.Lookup` (`src/go.mod`) indeed returns an empty
result with a nil error, but the packet engine
(`src/unnamed/part_002` / `part_001`) then sends a response message with
an empty answer section for that question rather than declining; the
dnsmessage-variant `Config.Lookup` (`src/unnamed/part_000`) instead
returns `errRecordNotFound` and its engine (`src/conn.go`) sends no
response for that question. -/
theorem claim_C3 (c : Config) (c2 : Dnsm.Config) (resolve : Resolver)
    (qs : List PendingQuery) (m : InMsg) (q : Question) (src : String)
    (fuel : Nat)
    (h1 : (q.qtype = typeA ∧ lookupA c q.qname = none)
        ∨ (q.qtype = typeSRV ∧ lookupSRV c q.qname = none))
    (h2 : (q.qtype = typeA ∧ Dnsm.lookupA c2 q.qname = none)
        ∨ (q.qtype = typeSRV ∧ Dnsm.lookupSRV c2 q.qname = none))
    (hm : m.opcode = 0 ∧ m.rcode = 0 ∧ m.truncated = false)
    (hq : m.questions = [q]) (ha : m.answers = []) :
    Lookup c resolve [] q src = (none, [])
    ∧ processPacket c resolve qs m src = ([createAnswerMessage m []], [], qs)
    ∧ Dnsm.Lookup fuel c2 resolve q.qname q.qtype q.qclass src
        = some (some .recordNotFound)
    ∧ Dnsm.processPacket fuel c2 resolve qs m src = ([], [], qs) := by
  obtain ⟨n, t, cl⟩ := q
  have hlk : Lookup c resolve [] ⟨n, t, cl⟩ src = (none, []) := by
    rcases h1 with ⟨ht, hn⟩ | ⟨ht, hn⟩ <;> subst ht
    · exact lookup_typeA_none c resolve [] n cl src hn
    · exact lookup_typeSRV_none c resolve [] n cl src hn
  have hlk2 : Dnsm.Lookup fuel c2 resolve n t cl src
      = some (some .recordNotFound) := by
    rcases h2 with ⟨ht, hn⟩ | ⟨ht, hn⟩ <;> subst ht <;>
      simp [Dnsm.Lookup, typeA, typeSRV, hn]
  refine ⟨hlk, ?_, hlk2, ?_⟩
  · simp [processPacket, hm.1, hm.2.1, hm.2.2, processQuestions, hq, hlk,
      processAnswers, ha]
  · simp [Dnsm.processPacket, hq, ha, hlk2]

/-- Witness for C3 (amended) on the empty stores and a concrete
unmatched A question. -/
theorem claim_C3_witness :
    ((typeA = typeA ∧ lookupA emptyConfig "nope.local." = none)
      ∨ (typeA = typeSRV ∧ lookupSRV emptyConfig "nope.local." = none))
    ∧ ((typeA = typeA
        ∧ Dnsm.lookupA ({ aRecords := [], srvRecords := [] } : Dnsm.Config)
            "nope.local." = none)
      ∨ (typeA = typeSRV
        ∧ Dnsm.lookupSRV ({ aRecords := [], srvRecords := [] } : Dnsm.Config)
            "nope.local." = none))
    ∧ Lookup emptyConfig (fun _ => none) []
        { qname := "nope.local.", qtype := typeA, qclass := classINET } "peer"
      = (none, [])
    ∧ Dnsm.Lookup 1 ({ aRecords := [], srvRecords := [] } : Dnsm.Config)
        (fun _ => none) "nope.local." typeA classINET "peer"
      = some (some .recordNotFound) :=
  ⟨Or.inl ⟨rfl, by decide⟩, Or.inl ⟨rfl, by decide⟩,
   (claim_C3 emptyConfig ({ aRecords := [], srvRecords := [] } : Dnsm.Config)
      (fun _ => none) []
      ({ msgId := 7, opcode := 0, rcode := 0, truncated := false,
         questions := [{ qname := "nope.local.", qtype := typeA, qclass := classINET }],
         answers := [] } : InMsg)
      { qname := "nope.local.", qtype := typeA, qclass := classINET } "peer" 1
      (Or.inl ⟨rfl, by decide⟩) (Or.inl ⟨rfl, by decide⟩)
      ⟨rfl, rfl, rfl⟩ rfl rfl).1,
   (claim_C3 emptyConfig ({ aRecords := [], srvRecords := [] } : Dnsm.Config)
      (fun _ => none) []
      ({ msgId := 7, opcode := 0, rcode := 0, truncated := false,
         questions := [{ qname := "nope.local.", qtype := typeA, qclass := classINET }],
         answers := [] } : InMsg)
      { qname := "nope.local.", qtype := typeA, qclass := classINET } "peer" 1
      (Or.inl ⟨rfl, by decide⟩) (Or.inl ⟨rfl, by decide⟩)
      ⟨rfl, rfl, rfl⟩ rfl rfl).2.2.1⟩

/-! ## Claim C5: answer handling -/

/-- Helper: the downward registry scan delivers to exactly the matching
entries (in reverse registry order, since the loop walks indices down)
and keeps exactly the non-matching ones in order. -/
theorem scanDeliver_eq (qs : List PendingQuery) (name : String)
    (rrtype : Nat) (answers : List AnswerRR) (src : String) :
    scanDeliver qs name rrtype answers src
      = ((qs.filter
            (fun q => decide (q.nameWithSuffix = name ∧ q.ttype = rrtype))).reverse.map
           (fun q => { receiver := q, answers := answers, src := src }),
         qs.filter
           (fun q => !decide (q.nameWithSuffix = name ∧ q.ttype = rrtype))) := by
  induction qs with
  | nil => simp [scanDeliver]
  | cons q rest ih =>
    by_cases h1 : q.nameWithSuffix = name
    · by_cases h2 : q.ttype = rrtype
      · simp [scanDeliver, ih, h1, h2, List.filter_cons]
      · simp [scanDeliver, ih, h1, h2, List.filter_cons]
    · simp [scanDeliver, ih, h1, List.filter_cons]

/-- Helper: answers whose type is neither A nor SRV leave the miekg
answer loop's state untouched. -/
theorem processAnswers_skip_aux (src : String) (l pay : List AnswerRR)
    (acc : List Delivery × List PendingQuery)
    (h : ∀ b ∈ l, b.rrtype ≠ typeA ∧ b.rrtype ≠ typeSRV) :
    l.foldl
      (fun acc a =>
        if a.rrtype = typeA ∨ a.rrtype = typeSRV then
          let p := scanDeliver acc.2 a.name a.rrtype pay src
          (acc.1 ++ p.1, p.2)
        else
          acc)
      acc = acc := by
  induction l generalizing acc with
  | nil => rfl
  | cons b t ih =>
    have hb := h b (by simp)
    simp only [List.foldl_cons, if_neg (not_or.mpr hb)]
    exact ih acc (fun x hx => h x (List.mem_cons_of_mem _ hx))

/-- Claim C5 (amended): in the miekg receive loop
(`src/unnamed/part_002` lines 156-192, `Conn.processAnswers` in
`part_001`), for an inbound answer record of type A or SRV the engine
delivers the entire answer section of the message plus the peer address
to every registered query whose canonical name and type code exactly
match the answer's header, removing each such entry, and keeps all other
entries; answer records of any other type are skipped entirely.  No
`maxMessageRecords` bound is applied in this loop — every answer record
of the message is visited (the counterexample shows a fourth record being
processed), and the `src/conn.go` loop instead matches A/AAAA headers,
delivers only the single header, and visits at most 4 records. -/
theorem claim_C5 (m : InMsg) (qs : List PendingQuery) (src : String)
    (a : AnswerRR) (hA : a.rrtype = typeA ∨ a.rrtype = typeSRV)
    (hans : m.answers = [a]) :
    processAnswers m qs src
      = ((qs.filter
            (fun q => decide (q.nameWithSuffix = a.name ∧ q.ttype = a.rrtype))).reverse.map
           (fun q => { receiver := q, answers := m.answers, src := src }),
         qs.filter
           (fun q => !decide (q.nameWithSuffix = a.name ∧ q.ttype = a.rrtype)))
    ∧ ∀ (m2 : InMsg) (qs2 : List PendingQuery),
        (∀ b ∈ m2.answers, b.rrtype ≠ typeA ∧ b.rrtype ≠ typeSRV) →
        processAnswers m2 qs2 src = ([], qs2) := by
  constructor
  · simp [processAnswers, hans, if_pos hA, scanDeliver_eq]
  · intro m2 qs2 h2
    exact processAnswers_skip_aux src m2.answers m2.answers ([], qs2) h2

/-- Witness for C5 (amended) on a concrete two-entry registry and one
matching A answer. -/
theorem claim_C5_witness :
    (typeA = typeA ∨ typeA = typeSRV)
    ∧ processAnswers
        ({ msgId := 0, opcode := 0, rcode := 0, truncated := false,
           questions := [],
           answers := [{ name := "x.local.", rrtype := typeA }] } : InMsg)
        [{ ttype := typeA, nameWithSuffix := "x.local." },
         { ttype := typeA, nameWithSuffix := "y.local." }]
        "peer"
      = (([({ ttype := typeA, nameWithSuffix := "x.local." } : PendingQuery),
           { ttype := typeA, nameWithSuffix := "y.local." }].filter
            (fun q => decide (q.nameWithSuffix = "x.local." ∧ q.ttype = typeA))).reverse.map
           (fun q => { receiver := q,
                       answers := [{ name := "x.local.", rrtype := typeA }],
                       src := "peer" }),
         [({ ttype := typeA, nameWithSuffix := "x.local." } : PendingQuery),
          { ttype := typeA, nameWithSuffix := "y.local." }].filter
           (fun q => !decide (q.nameWithSuffix = "x.local." ∧ q.ttype = typeA))) :=
  ⟨Or.inl rfl,
   (claim_C5
      ({ msgId := 0, opcode := 0, rcode := 0, truncated := false,
         questions := [],
         answers := [{ name := "x.local.", rrtype := typeA }] } : InMsg)
      [{ ttype := typeA, nameWithSuffix := "x.local." },
       { ttype := typeA, nameWithSuffix := "y.local." }]
      "peer" { name := "x.local.", rrtype := typeA } (Or.inl rfl) rfl).1⟩

/-- Claim C5 counterexample: the miekg answer loop applies no
`maxMessageRecords = 3` bound: a message with four matching A answer
records produces four deliveries (one per record), so a fourth answer
record IS processed, contradicting "at most 3 answer records per inbound
message". -/
theorem claim_C5_counterexample :
    (processAnswers
        ({ msgId := 0, opcode := 0, rcode := 0, truncated := false,
           questions := [],
           answers := [{ name := "a.local.", rrtype := typeA },
                       { name := "b.local.", rrtype := typeA },
                       { name := "c.local.", rrtype := typeA },
                       { name := "d.local.", rrtype := typeA }] } : InMsg)
        [{ ttype := typeA, nameWithSuffix := "a.local." },
         { ttype := typeA, nameWithSuffix := "b.local." },
         { ttype := typeA, nameWithSuffix := "c.local." },
         { ttype := typeA, nameWithSuffix := "d.local." }]
        "peer").1.length = 4 := by
  decide

/-! ## Claim C6: cancellation cleanup -/

/-- Claim C6 (evaluation of the code bug): a blocking query whose context
fires before an answer does return `errContextElapsed`
(`src/unnamed/part_002` line 243), but the select loop's ctx.Done arm
returns with the query registry exactly as it was — the entry registered
at lines 226-229 is still present afterward — and `Conn.Query` contains
no `ticker.Stop()` call on this or any other path. -/
theorem claim_C6 :
    querySelect (registerQuery [] "x.local" typeA) .ctxDone
      = (some (.error .contextElapsed),
         [{ ttype := typeA, nameWithSuffix := "x.local." }])
    ∧ registerQuery [] "x.local" typeA
      = [{ ttype := typeA, nameWithSuffix := "x.local." }] := by
  decide

/-! ## Claim C7: outbound question encoding -/

/-- Claim C7 counterexample: the dnsmessage-variant `Conn.sendQuestion`
(`src/conn.go`) leaves the header zero, so the outbound question message
has RD = 0, not RD = 1 as the claim states.  (The miekg variant sets
RD = 1 but draws a random, generally non-zero, ID via
`msg.SetQuestion`.) -/
theorem claim_C7_counterexample :
    (Dnsm.sendQuestionMsg "x.local." typeA).recursionDesired = false := by
  decide

/-- Claim C7 (amended): for a requested type of A or SRV, the
dnsmessage-variant question message (`src/conn.go` sendQuestion) has
ID = 0, QR = 0 and RD = 0 with exactly one ClassINET question of the
requested type, while the miekg-variant message (`part_001`/`part_002`
sendQuestion) has QR = 0 and RD = 1 with exactly one ClassINET question
of the requested type but carries the library's randomly drawn ID. -/
theorem claim_C7 (name : String) (t : Nat) (h : t = typeA ∨ t = typeSRV) :
    Dnsm.sendQuestionMsg name t
      = { msgId := 0, response := false, recursionDesired := false,
          questions := [{ qname := name, qtype := t, qclass := classINET }] }
    ∧ ∀ idv : Nat,
        sendQuestionMiekg idv name t
          = { msgId := idv, response := false, recursionDesired := true,
              questions := [{ qname := name, qtype := t, qclass := classINET }] } := by
  rcases h with h | h <;> subst h <;>
    simp [Dnsm.sendQuestionMsg, sendQuestionMiekg, typeA, typeSRV]

/-- Witness for C7 (amended) at a concrete name and type. -/
theorem claim_C7_witness :
    (typeSRV = typeA ∨ typeSRV = typeSRV)
    ∧ Dnsm.sendQuestionMsg "x.local." typeSRV
      = { msgId := 0, response := false, recursionDesired := false,
          questions := [{ qname := "x.local.", qtype := typeSRV,
                          qclass := classINET }] } :=
  ⟨Or.inr rfl, (claim_C7 "x.local." typeSRV (Or.inr rfl)).1⟩

/-! ## Claim C8: name canonicalization -/

/-- Claim C8 counterexample: `Conn.Query` in `src/conn.go` (line 197)
computes `nameWithSuffix := name + "."` unconditionally, so a name that
already ends in a dot gains a second dot — contradicting the claim that
every name accepted at the public interface is canonicalized to exactly
one trailing dot before being used as a registered query name. -/
theorem claim_C8_counterexample :
    Dnsm.queryNameWithSuffix "x.local." = "x.local.."
    ∧ Dnsm.queryNameWithSuffix "x.local." ≠ "x.local." := by
  decide

/-- Claim C8 (amended): names on the add paths (`src/go.mod`
`addARecord`) are canonicalized with `addDot` (lowercased, one trailing
dot appended iff missing) before being used as store keys, but the
remove paths (`src/go.mod` `removeARecord`) compare the caller's RAW
name against the stored canonical names — so whenever the raw name
differs from its canonical form, an add followed by a remove of the very
same string reports `errRecordNotFound` — and the dnsmessage-variant
`Conn.Query` appends a dot unconditionally, so an already-dotted name
gains a second dot (see the counterexample). -/
theorem claim_C8 (name : String) (ip : IPv4) (h1 : name ≠ "")
    (h2 : addDot name ≠ name) :
    addARecord emptyConfig name (some ip) false
      = .ok ({ aRecords := [{ hdrName := addDot name, hdrRrtype := typeA,
                              hdrClass := classINET, hdrTtl := responseTTL,
                              addr := some ip, dynamic := false }],
               srvRecords := [] } : Config)
    ∧ removeARecord
        ({ aRecords := [{ hdrName := addDot name, hdrRrtype := typeA,
                          hdrClass := classINET, hdrTtl := responseTTL,
                          addr := some ip, dynamic := false }],
           srvRecords := [] } : Config) name
      = some (.error .recordNotFound) := by
  constructor
  · simp [addARecord, h1, createSimpleARecord, addARecordToConfig, emptyConfig]
  · simp [removeARecord, removeScan, h2]

/-- Witness for C8 (amended): adding `X.local` stores `x.local.`, and
removing by the raw string `X.local` fails with `errRecordNotFound`. -/
theorem claim_C8_witness :
    ("X.local" ≠ "" ∧ addDot "X.local" ≠ "X.local")
    ∧ (addARecord emptyConfig "X.local" (some 10) false
        = .ok ({ aRecords := [{ hdrName := addDot "X.local", hdrRrtype := typeA,
                                hdrClass := classINET, hdrTtl := responseTTL,
                                addr := some 10, dynamic := false }],
                 srvRecords := [] } : Config)
      ∧ removeARecord
          ({ aRecords := [{ hdrName := addDot "X.local", hdrRrtype := typeA,
                            hdrClass := classINET, hdrTtl := responseTTL,
                            addr := some 10, dynamic := false }],
             srvRecords := [] } : Config) "X.local"
        = some (.error .recordNotFound)) :=
  ⟨⟨by decide, by decide⟩, claim_C8 "X.local" 10 (by decide) (by decide)⟩

/-! ## Claim C9: record TTLs and type codes -/

/-- Claim C9 (evaluation of the code bug): A records are created with
TTL `responseTTL` = 10 and type code TypeA = 1 in both variants, but the
miekg-variant `Config.createSRVRecord` (`src/go.mod`) never assigns
`Ttl`, leaving the SRV record's TTL at 0 instead of 10, and the
dnsmessage-variant `Config.createSRVRecord`
(`src/unnamed/part_000` line 175) sets the header type to TypeA = 1
instead of TypeSRV = 33. -/
theorem claim_C9 :
    (createSimpleARecord "x.local.").hdrTtl = 10
    ∧ (createSimpleARecord "x.local.").hdrRrtype = 1
    ∧ (createSRVRecord "x.local." 0 0 8080 "y.local.").hdrRrtype = 33
    ∧ (createSRVRecord "x.local." 0 0 8080 "y.local.").hdrTtl = 0
    ∧ (Dnsm.createSimpleARecord "x.local.").ttl = 10
    ∧ (Dnsm.createSimpleARecord "x.local.").rrtype = 1
    ∧ (Dnsm.createSRVRecord "x.local." 0 0 8080 "y.local.").ttl = 10
    ∧ (Dnsm.createSRVRecord "x.local." 0 0 8080 "y.local.").rrtype = 1 := by
  decide

end Mdns
